import Mathlib

/-!
Verification development for the Garena-status Telegram bot
(`tg_garena_formatter.py`).

The bot periodically polls a remote HTTP endpoint for the lock status of
tracked accounts and notifies subscribing chats.  This file gives a shallow
embedding of the pieces the specification talks about:

* a model of JSON values (the persisted `data.json` state and the probe
  response bodies are JSON; the Python `json` standard library is treated
  as a trusted boundary, so response bodies are abstracted by their parse
  outcome `String → Option Json`);
* `api_check_unlocked`, the status prober (source lines 51-79);
* `load_data` / `save_data`, the persistence layer (source lines 33-49),
  with the file system modelled by the parse outcome of the file's content
  and `save_data` additionally modelled as the trace of observable file
  states during the in-place write;
* `periodic_check`, one scheduler sweep (source lines 144-156), with the
  network transport and the Telegram delivery modelled as oracles; a
  delivery oracle answering `false` models `send_message` raising, which
  the source does not catch.
-/

/-- JSON values, as produced by Python's `json.loads`.  Numbers are modelled
by `Int`; no behaviour relevant here depends on fractional values.  Python
dicts are association lists with distinct keys; lookup takes the first
binding. -/
inductive Json where
  | null : Json
  | bool (b : Bool) : Json
  | num (n : Int) : Json
  | str (s : String) : Json
  | arr (xs : List Json) : Json
  | obj (kvs : List (String × Json)) : Json
deriving Repr

/-- Python truthiness (`bool(x)`) on JSON values: `None`, `False`, `0`,
`""`, `[]` and `{}` (written here as empty lists) are falsy, everything
else truthy. -/
def Json.truthy : Json → Bool
  | .null => false
  | .bool b => b
  | .num n => n != 0
  | .str s => s != ""
  | .arr xs => !xs.isEmpty
  | .obj kvs => !kvs.isEmpty

/-- Key lookup in a JSON object, Python's `d.get(k)` / `k in d`. -/
def lookupJ : List (String × Json) → String → Option Json
  | [], _ => none
  | (k, v) :: rest, key => if k = key then some v else lookupJ rest key

/-- Python `v in ("ok", "success")` for a JSON value `v`: only a string
equal to one of the listed strings is a member. -/
def jStrIn (j : Json) (ss : List String) : Bool :=
  match j with
  | .str s => ss.contains s
  | _ => false

/-- The `status` slot of a probe result: the Python code stores either the
string sentinel `"not-configured"`, the string sentinel `"error"`, or the
integer HTTP status code (it starts as `None` but every return path has
overwritten it). -/
inductive StatusV where
  | notConfigured : StatusV
  | error : StatusV
  | code (n : Nat) : StatusV
deriving Repr, DecidableEq

/-- The probe result dict built by `api_check_unlocked`
(`out = {"ok": False, "unlocked": False, "raw": None, "status": None}`).
The `raw` slot holds `None` (modelled `Json.null`), the parsed body, the
raw response text (modelled `Json.str`), or an error description
(modelled `Json.str`). -/
structure ProbeResult where
  ok : Bool
  unlocked : Bool
  raw : Json
  status : StatusV
deriving Repr

/-- Outcome of the one network interaction attempted by the prober:
either the request/read raises (timeout, connection error, DNS failure,
...), carrying the exception's description `str(e)`, or a response
arrives with an HTTP status code and a body text. -/
inductive Transport where
  | fail (e : String) : Transport
  | resp (code : Nat) (text : String) : Transport
deriving Repr, DecidableEq

/-- The unlocked-signal extraction of source lines 68-74, applied to the
parse outcome of the response body:

    if isinstance(parsed, dict):
        if "unlocked" in parsed:
            out["unlocked"] = bool(parsed["unlocked"])
        elif parsed.get("status") in ("ok", "success"):
            inner = parsed.get("data") or {}
            if isinstance(inner, dict) and "unlocked" in inner:
                out["unlocked"] = bool(inner["unlocked"])

`parsed.get("data") or {}` replaces a falsy `data` value by the empty
dict; a truthy non-dict `data` value then fails the `isinstance` test. -/
def extractUnlocked : Option Json → Bool
  | some (Json.obj kvs) =>
    match lookupJ kvs "unlocked" with
    | some v => v.truthy
    | none =>
      match lookupJ kvs "status" with
      | some sv =>
        if jStrIn sv ["ok", "success"] then
          let inner : Json :=
            match lookupJ kvs "data" with
            | some dv => if dv.truthy then dv else Json.obj []
            | none => Json.obj []
          match inner with
          | Json.obj ikvs =>
            match lookupJ ikvs "unlocked" with
            | some iv => iv.truthy
            | none => false
          | _ => false
        else false
      | none => false
  | _ => false

/-- The prober `api_check_unlocked(session, base_url, bearer, account)`
(source lines 51-79).  `parse` stands for `json.loads` (the inner
`try/except` around it maps a parse failure to `parsed = None`, modelled
`none`); `t` is the outcome of the single `session.post`, whose exceptions
the outer `try/except` converts into the error result.  Besides the
`ProbeResult` the model returns the number of network calls performed, so
that the not-configured short circuit's "no network call" is visible.
The `account` argument only feeds the request payload and does not affect
the result shape. -/
def api_check_unlocked (parse : String → Option Json)
    (base_url bearer account : String) (t : Transport) : ProbeResult × Nat :=
  if base_url = "" ∨ bearer = "" then
    ({ ok := false, unlocked := false, raw := Json.null,
       status := StatusV.notConfigured }, 0)
  else
    match t with
    | Transport.fail e =>
      ({ ok := false, unlocked := false, raw := Json.str e,
         status := StatusV.error }, 1)
    | Transport.resp code text =>
      let parsed := parse text
      let rawv : Json :=
        match parsed with
        | some j => if j.truthy then j else Json.str text
        | none => Json.str text
      ({ ok := decide (code < 400), unlocked := extractUnlocked parsed,
         raw := rawv, status := StatusV.code code }, 1)

/-- Observable content of the persisted `data.json`, abstracted by its
parse outcome: the file is absent, present but not valid JSON (this
includes an empty or half-written file), or present and parsing to a JSON
value. -/
inductive FileState where
  | missing : FileState
  | unparsable : FileState
  | parsed (j : Json) : FileState
deriving Repr

/-- The default state dict of `load_data` (source lines 35-40 and 45). -/
def defaultState : Json :=
  Json.obj
    [ ("chats", Json.obj []),
      ("api", Json.obj [("url", Json.str ""), ("token", Json.str "")]),
      ("last_seen_unlocked", Json.obj []),
      ("include_raw", Json.bool false) ]

/-- `load_data()` (source lines 33-45): missing file yields the default
state; `json.load` raising (unparsable content) is caught and yields the
default state; otherwise the parsed value is returned verbatim, with no
validation of its shape. -/
def load_data : FileState → Json
  | FileState.missing => defaultState
  | FileState.unparsable => defaultState
  | FileState.parsed j => j

/-- File state after `save_data(d)` (source lines 47-49) completes:
`json.dump` faithfully serialises the value, so the file parses back to
it (the Python `json` library is the trusted boundary here). -/
def save_data (j : Json) : FileState := FileState.parsed j

/-- The sequence of file states observable during `save_data(d)`:
`open(DATA_FILE, "w")` truncates the file immediately, so before
`json.dump` has finished the file is empty or holds a strict prefix of
the serialisation — in either case not valid JSON — and only the final
state holds the complete document.  There is no temporary file and no
rename. -/
def save_data_trace (j : Json) : List FileState :=
  [FileState.unparsable, save_data j]

/-- The scheduler's first use of a loaded state, `d.get("api", {})`
(source line 146): on a dict it yields the `api` member (or the empty
dict), on any non-dict value the attribute access raises, modelled as
`none`. -/
def getApi : Json → Option Json
  | Json.obj kvs =>
    some ((lookupJ kvs "api").getD (Json.obj []))
  | _ => none

/-- Per-chat configuration, the dict `{"accounts": [...], "interval_min": n}`
kept under `d["chats"][chat_id]`. -/
structure ChatCfg where
  accounts : List String
  interval_min : Int
deriving Repr, DecidableEq

/-- Structured view of a well-formed persisted state, as `periodic_check`
reads it: the `chats` mapping (insertion-ordered), the shared endpoint
configuration `api.url` / `api.token`, and the `last_seen_unlocked`
cache. -/
structure StoreState where
  chats : List (String × ChatCfg)
  apiUrl : String
  apiToken : String
  last_seen_unlocked : List (String × Bool)
deriving Repr, DecidableEq

/-- What one run of `periodic_check` did: the `(chat_id, account)` pairs
probed in order, the `(chat_id, account)` pairs for which a notification
was delivered, whether the sweep ran to completion (`false` when an
uncaught `send_message` exception aborted it), and the
`last_seen_unlocked` cache after the sweep. -/
structure SweepResult where
  probedPairs : List (String × String)
  sent : List (String × String)
  completed : Bool
  cache : List (String × Bool)
deriving Repr, DecidableEq

/-- Intermediate result of sweeping a list of accounts or chats. -/
structure SweepAcc where
  probedPairs : List (String × String)
  sent : List (String × String)
  completed : Bool
deriving Repr, DecidableEq

/-- The inner loop of `periodic_check` (source lines 151-156) over one
chat's accounts: probe, and when the result's `unlocked` is truthy,
deliver a notification.  `deliver chat acc = false` models
`app.bot.send_message` raising; the exception is not caught, so the rest
of the sweep is abandoned.  The rendered message text
(`format_notification`) does not influence control flow and is abstracted
to the `(chat, account)` pair. -/
def checkAccounts (probe : String → ProbeResult)
    (deliver : String → String → Bool) (chatId : String) :
    List String → SweepAcc
  | [] => { probedPairs := [], sent := [], completed := true }
  | acc :: rest =>
    let res := probe acc
    if res.unlocked then
      if deliver chatId acc then
        let r := checkAccounts probe deliver chatId rest
        { probedPairs := (chatId, acc) :: r.probedPairs,
          sent := (chatId, acc) :: r.sent, completed := r.completed }
      else
        { probedPairs := [(chatId, acc)], sent := [], completed := false }
    else
      let r := checkAccounts probe deliver chatId rest
      { probedPairs := (chatId, acc) :: r.probedPairs,
        sent := r.sent, completed := r.completed }

/-- The outer loop of `periodic_check` (source line 150) over all chats;
an uncaught delivery exception in one chat abandons the remaining chats
as well. -/
def checkChats (probe : String → ProbeResult)
    (deliver : String → String → Bool) :
    List (String × ChatCfg) → SweepAcc
  | [] => { probedPairs := [], sent := [], completed := true }
  | (chatId, cfg) :: rest =>
    let r := checkAccounts probe deliver chatId cfg.accounts
    if r.completed then
      let r2 := checkChats probe deliver rest
      { probedPairs := r.probedPairs ++ r2.probedPairs,
        sent := r.sent ++ r2.sent, completed := r2.completed }
    else
      { probedPairs := r.probedPairs, sent := r.sent, completed := false }

/-- One scheduler sweep, `periodic_check(app)` (source lines 144-156), on
a well-formed state `st`.  `transport` gives each account's network
outcome and `parse` stands for `json.loads`, so each probe goes through
`api_check_unlocked`; `deliver` is the Telegram send oracle.  The source
never reads nor writes `last_seen_unlocked` in this function, so the
cache comes back unchanged. -/
def periodic_check (parse : String → Option Json)
    (transport : String → Transport)
    (deliver : String → String → Bool) (st : StoreState) : SweepResult :=
  if st.apiUrl = "" ∨ st.apiToken = "" then
    { probedPairs := [], sent := [], completed := true,
      cache := st.last_seen_unlocked }
  else
    let probe := fun acc =>
      (api_check_unlocked parse st.apiUrl st.apiToken acc (transport acc)).1
    let r := checkChats probe deliver st.chats
    { probedPairs := r.probedPairs, sent := r.sent,
      completed := r.completed, cache := st.last_seen_unlocked }

/-- All `(chat_id, account)` pairs a sweep is supposed to visit, in the
nesting order of the two loops. -/
def trackedPairs (st : StoreState) : List (String × String) :=
  st.chats.flatMap (fun p => p.2.accounts.map (fun a => (p.1, a)))

/-- The response body of the spec's parse-priority example,
a mapping with top-level unlocked=false, status="ok" and
data containing unlocked=true. -/
def bodyC4 : Json :=
  Json.obj
    [ ("unlocked", Json.bool false),
      ("status", Json.str "ok"),
      ("data", Json.obj [("unlocked", Json.bool true)]) ]

/-- Parse oracle standing for `json.loads` on a handful of sentinel body
texts used in concrete scenarios; every other text is unparsable. -/
def parseOracle : String → Option Json
  | "bodyTrue" => some (Json.obj [("unlocked", Json.bool true)])
  | "bodyC4" => some bodyC4
  | "bodyEmptyObj" => some (Json.obj [])
  | _ => none

/-- Transport oracle answering every probe with HTTP 200 and the body
that parses to a mapping with unlocked=true. -/
def transportTrue : String → Transport :=
  fun _ => Transport.resp 200 "bodyTrue"

/-- Transport oracle where account "accA" suffers a transport failure and
every other account receives the unlocked=true response. -/
def transportFailA : String → Transport :=
  fun acc =>
    if acc = "accA" then Transport.fail "timeout"
    else Transport.resp 200 "bodyTrue"

/-- Delivery oracle where every `send_message` succeeds. -/
def deliverOk : String → String → Bool := fun _ _ => true

/-- Delivery oracle where every `send_message` raises. -/
def deliverFail : String → String → Bool := fun _ _ => false

/-- The spec's concrete scenario state: subscriber "1001" tracks account
"gamer123", the endpoint is configured, and the last-seen cache already
records the account as unlocked (a notification was already sent). -/
def stC1 : StoreState :=
  { chats := [("1001", { accounts := ["gamer123"], interval_min := 5 })],
    apiUrl := "u", apiToken := "t",
    last_seen_unlocked := [("gamer123", true)] }

/-- Sweep-isolation scenario state: subscriber "1001" tracks the two
accounts "accA" and "accB"; the endpoint is configured. -/
def stC2 : StoreState :=
  { chats := [("1001", { accounts := ["accA", "accB"], interval_min := 5 })],
    apiUrl := "u", apiToken := "t", last_seen_unlocked := [] }

/-- A non-default well-formed persisted state, standing for the
previously persisted good state in the atomicity scenario. -/
def prevGood : Json :=
  Json.obj
    [ ("chats",
        Json.obj
          [("1001",
            Json.obj [("accounts", Json.arr [Json.str "gamer123"])])]),
      ("api", Json.obj [("url", Json.str "u"), ("token", Json.str "t")]),
      ("last_seen_unlocked", Json.obj []),
      ("include_raw", Json.bool false) ]

/-- When every delivery succeeds, the inner account loop visits every
account of the chat in order — whatever the probe results are, including
transport-error results — and completes. -/
theorem checkAccounts_all_delivered (probe : String → ProbeResult)
    (deliver : String → String → Bool) (chatId : String)
    (hd : ∀ a, deliver chatId a = true) :
    ∀ accs : List String,
      (checkAccounts probe deliver chatId accs).probedPairs
          = accs.map (fun a => (chatId, a))
        ∧ (checkAccounts probe deliver chatId accs).completed = true := by
  intro accs
  induction accs with
  | nil => exact ⟨rfl, rfl⟩
  | cons a rest ih =>
    cases hca : (probe a).unlocked with
    | true => simp [checkAccounts, hca, hd a, ih.1, ih.2]
    | false => simp [checkAccounts, hca, ih.1, ih.2]

/-- When every delivery succeeds, the outer chat loop visits every
tracked account of every chat, in nesting order, and completes. -/
theorem checkChats_all_delivered (probe : String → ProbeResult)
    (deliver : String → String → Bool)
    (hd : ∀ c a, deliver c a = true) :
    ∀ chats : List (String × ChatCfg),
      (checkChats probe deliver chats).probedPairs
          = chats.flatMap (fun p => p.2.accounts.map (fun a => (p.1, a)))
        ∧ (checkChats probe deliver chats).completed = true := by
  intro chats
  induction chats with
  | nil => exact ⟨rfl, rfl⟩
  | cons p rest ih =>
    obtain ⟨c, cfg⟩ := p
    have h1 := checkAccounts_all_delivered probe deliver c (hd c) cfg.accounts
    simp [checkChats, h1.1, h1.2, ih.1, ih.2]

/-- C1: the scheduler sweep does not implement the claimed dedup.  On the
failing input — the cache already records account "gamer123" as unlocked
(a notification was already sent and the cache entry set to true) and the
probe again reports unlocked=true — the sweep sends another notification,
and the cache is neither consulted nor updated: `periodic_check` sends
whenever the probe's unlocked signal is truthy, while the claim says zero
further notifications are sent once the cached value is true. -/
theorem c1_resends_despite_cache_true :
    (periodic_check parseOracle transportTrue deliverOk stC1).sent
        = [("1001", "gamer123")]
      ∧ (periodic_check parseOracle transportTrue deliverOk stC1).cache
        = [("gamer123", true)] := by
  decide

/-- C2 counterexample: the claim fails for delivery errors.  With the
probe reporting unlocked=true for both accounts of subscriber "1001" and
the delivery to the first account "accA" raising, the sweep aborts:
"accB" is never probed and the sweep does not complete. -/
theorem c2_delivery_failure_aborts_sweep :
    (periodic_check parseOracle transportTrue deliverFail stC2).probedPairs
        = [("1001", "accA")]
      ∧ ("1001", "accB") ∉
          (periodic_check parseOracle transportTrue deliverFail stC2).probedPairs
      ∧ (periodic_check parseOracle transportTrue deliverFail stC2).completed
        = false := by
  decide

/-- C2 (amended): a probe failure at a single (subscriber, account) pair
never aborts the sweep — the probe traps all transport errors and returns
an error result — so as long as every delivery succeeds, every tracked
account of every subscriber is probed, in order, whatever the transport
outcomes are; a notification-delivery failure, however, propagates and
aborts the remainder of the sweep (see the counterexample). -/
theorem c2_probe_failures_do_not_abort_sweep
    (parse : String → Option Json) (transport : String → Transport)
    (deliver : String → String → Bool) (st : StoreState)
    (hd : ∀ c a, deliver c a = true)
    (hu : st.apiUrl ≠ "") (ht : st.apiToken ≠ "") :
    (periodic_check parse transport deliver st).probedPairs = trackedPairs st
      ∧ (periodic_check parse transport deliver st).completed = true := by
  have h := checkChats_all_delivered
    (fun acc =>
      (api_check_unlocked parse st.apiUrl st.apiToken acc (transport acc)).1)
    deliver hd st.chats
  simp [periodic_check, hu, ht, trackedPairs, h.1, h.2]

/-- Witness for C2 (amended): in the two-account scenario with a transport
failure for "accA" and all deliveries succeeding, both tracked pairs are
probed and the sweep completes. -/
theorem c2_probe_failures_do_not_abort_sweep_witness :
    (periodic_check parseOracle transportFailA deliverOk stC2).probedPairs
        = trackedPairs stC2
      ∧ (periodic_check parseOracle transportFailA deliverOk stC2).completed
        = true :=
  c2_probe_failures_do_not_abort_sweep parseOracle transportFailA deliverOk
    stC2 (fun _ _ => rfl) (by decide) (by decide)

/-- C3 counterexample: during `save_data` the file is first truncated
(there is no write-to-temp-then-rename), so a half-written state file is
visible to a concurrent `load_data`, which then yields the empty default
instead of the previously persisted good state. -/
theorem c3_truncation_visible_to_concurrent_load :
    (save_data_trace prevGood).head? = some FileState.unparsable
      ∧ load_data FileState.unparsable = defaultState
      ∧ defaultState ≠ prevGood := by
  refine ⟨rfl, rfl, ?_⟩
  simp [defaultState, prevGood]

/-- C3 (amended): `save_data` persists the full state by truncating the
data file in place and rewriting it, with no temporary file and no
rename: the truncated (half-written, unparsable) file is the first
observable state of the write and is read back as the empty default by a
concurrent `load_data` — so a write that fails after truncation loses the
previous good state — and only the final state of the write holds the
complete serialised document. -/
theorem c3_save_rewrites_file_in_place (j : Json) :
    (save_data_trace j).head? = some FileState.unparsable
      ∧ (save_data_trace j).getLast? = some (save_data j)
      ∧ save_data j = FileState.parsed j
      ∧ load_data FileState.unparsable = defaultState :=
  ⟨rfl, rfl, rfl, rfl⟩

/-- C4: the unlocked-signal extraction gives rule 1 priority — whenever
the parsed body is a mapping with a top-level `unlocked` key, the probe
result's unlocked field is that value's truthiness, regardless of any
`status`/`data` members — and an unparsable body defaults to false; in
particular, for the body with top-level unlocked=false, status="ok" and
data.unlocked=true, the probe result's unlocked field is false. -/
theorem c4_top_level_unlocked_wins :
    (∀ (parse : String → Option Json) (url tok acc text : String)
        (code : Nat) (kvs : List (String × Json)) (v : Json),
        url ≠ "" → tok ≠ "" → parse text = some (Json.obj kvs) →
        lookupJ kvs "unlocked" = some v →
        (api_check_unlocked parse url tok acc
            (Transport.resp code text)).1.unlocked = v.truthy)
      ∧ extractUnlocked none = false
      ∧ (api_check_unlocked parseOracle "u" "t" "a"
          (Transport.resp 200 "bodyC4")).1.unlocked = false := by
  refine ⟨?_, rfl, by decide⟩
  intro parse url tok acc text code kvs v hu ht hp hl
  simp [api_check_unlocked, hu, ht, hp, extractUnlocked, hl]

/-- Witness for C4: rule 1 applied to the example body gives the
truthiness of the top-level value `false`. -/
theorem c4_top_level_unlocked_wins_witness :
    (api_check_unlocked parseOracle "u" "t" "a"
        (Transport.resp 200 "bodyC4")).1.unlocked = (Json.bool false).truthy :=
  c4_top_level_unlocked_wins.1 parseOracle "u" "t" "a" "bodyC4" 200
    [ ("unlocked", Json.bool false), ("status", Json.str "ok"),
      ("data", Json.obj [("unlocked", Json.bool true)]) ]
    (Json.bool false) (by decide) (by decide) rfl rfl

/-- C5: on a configured endpoint, any transport-level failure is caught
and returned as a result with ok=false, status="error" and raw holding
the error's description; the call is a total function of its inputs, so
no failure propagates. -/
theorem c5_transport_failure_is_captured
    (parse : String → Option Json) (url tok acc e : String)
    (hu : url ≠ "") (ht : tok ≠ "") :
    api_check_unlocked parse url tok acc (Transport.fail e)
      = ({ ok := false, unlocked := false, raw := Json.str e,
           status := StatusV.error }, 1) := by
  simp [api_check_unlocked, hu, ht]

/-- Witness for C5 at a concrete timeout failure. -/
theorem c5_transport_failure_is_captured_witness :
    api_check_unlocked parseOracle "u" "t" "a" (Transport.fail "timeout")
      = ({ ok := false, unlocked := false, raw := Json.str "timeout",
           status := StatusV.error }, 1) :=
  c5_transport_failure_is_captured parseOracle "u" "t" "a" "timeout"
    (by decide) (by decide)

/-- C6: with an empty base url or bearer token the probe returns
immediately with status="not-configured" and ok=false (and unlocked
false, raw None), performing zero network calls, whatever the transport
would have answered. -/
theorem c6_not_configured_short_circuit
    (parse : String → Option Json) (url tok acc : String) (t : Transport)
    (h : url = "" ∨ tok = "") :
    api_check_unlocked parse url tok acc t
      = ({ ok := false, unlocked := false, raw := Json.null,
           status := StatusV.notConfigured }, 0) := by
  rcases h with h | h <;> simp [api_check_unlocked, h]

/-- Witness for C6 with an empty url. -/
theorem c6_not_configured_short_circuit_witness :
    api_check_unlocked parseOracle "" "t" "a" (Transport.resp 200 "bodyTrue")
      = ({ ok := false, unlocked := false, raw := Json.null,
           status := StatusV.notConfigured }, 0) :=
  c6_not_configured_short_circuit parseOracle "" "t" "a"
    (Transport.resp 200 "bodyTrue") (Or.inl rfl)

/-- C8: on a configured endpoint, when the transport succeeds the probe
result's ok field is true iff the HTTP status code is below 400, and
when the transport fails ok is false. -/
theorem c8_ok_iff_status_below_400
    (parse : String → Option Json) (url tok acc : String)
    (hu : url ≠ "") (ht : tok ≠ "") :
    (∀ (code : Nat) (text : String),
        (api_check_unlocked parse url tok acc
            (Transport.resp code text)).1.ok = true ↔ code < 400)
      ∧ ∀ e : String,
        (api_check_unlocked parse url tok acc (Transport.fail e)).1.ok
          = false := by
  constructor
  · intro code text
    simp [api_check_unlocked, hu, ht]
  · intro e
    simp [api_check_unlocked, hu, ht]

/-- Witness for C8 at a 200 response and at a transport failure. -/
theorem c8_ok_iff_status_below_400_witness :
    ((api_check_unlocked parseOracle "u" "t" "a"
        (Transport.resp 200 "bodyTrue")).1.ok = true ↔ 200 < 400)
      ∧ (api_check_unlocked parseOracle "u" "t" "a"
          (Transport.fail "down")).1.ok = false :=
  ⟨(c8_ok_iff_status_below_400 parseOracle "u" "t" "a"
      (by decide) (by decide)).1 200 "bodyTrue",
   (c8_ok_iff_status_below_400 parseOracle "u" "t" "a"
      (by decide) (by decide)).2 "down"⟩

/-- C7 counterexample: backing storage holding valid JSON that is not a
state mapping — here the document `null` — is not replaced by the default:
`load_data` returns it verbatim, and the scheduler's first attribute
access on the loaded value (`d.get("api", ...)`) then raises, so corrupt
backing storage can crash the caller. -/
theorem c7_null_state_returned_verbatim :
    load_data (FileState.parsed Json.null) = Json.null
      ∧ Json.null ≠ defaultState
      ∧ getApi (load_data (FileState.parsed Json.null)) = none := by
  refine ⟨rfl, ?_, rfl⟩
  simp [defaultState]

/-- C7 (amended): `load_data` returns the parsed persisted value
verbatim; on a missing file or on backing storage that is not valid JSON
it returns the empty default state (empty chats mapping, endpoint with
empty url and token, empty last-seen cache) rather than failing; but
backing storage holding valid JSON of the wrong shape is returned as-is,
not replaced by the default, and can make the caller's attribute access
raise (see the counterexample). -/
theorem c7_load_defaults_on_missing_or_unparsable :
    load_data FileState.missing = defaultState
      ∧ load_data FileState.unparsable = defaultState
      ∧ ∀ j : Json, load_data (FileState.parsed j) = j :=
  ⟨rfl, rfl, fun _ => rfl⟩

/-- C9: on well-formed backing storage — a file whose content parses to a
JSON document `j` — the round trip `save_data (load_data ·)` persists a
file with exactly the same parsed value: `load_data` returns the value
verbatim and `save_data` serialises it back faithfully, so the persisted
state after the round trip is semantically equal to the state before
it. -/
theorem c9_save_load_roundtrip (j : Json) :
    save_data (load_data (FileState.parsed j)) = FileState.parsed j :=
  rfl

/-- C10: when the response body parses successfully, the probe result's
raw field holds the parsed value only if that value is truthy; a falsy
parsed value (None, false, 0, empty string, empty mapping, empty list)
leaves the original response text in raw instead (`parsed or text`). -/
theorem c10_raw_keeps_text_for_falsy_parse
    (parse : String → Option Json) (url tok acc text : String) (code : Nat)
    (j : Json) (hu : url ≠ "") (ht : tok ≠ "") (hp : parse text = some j) :
    (j.truthy = false →
        (api_check_unlocked parse url tok acc
            (Transport.resp code text)).1.raw = Json.str text)
      ∧ (j.truthy = true →
        (api_check_unlocked parse url tok acc
            (Transport.resp code text)).1.raw = j) := by
  constructor <;> intro h <;> simp [api_check_unlocked, hu, ht, hp, h]

/-- Witness for C10: a body parsing to the empty mapping (falsy) leaves
the original text in raw. -/
theorem c10_raw_keeps_text_for_falsy_parse_witness :
    (api_check_unlocked parseOracle "u" "t" "a"
        (Transport.resp 200 "bodyEmptyObj")).1.raw = Json.str "bodyEmptyObj" :=
  (c10_raw_keeps_text_for_falsy_parse parseOracle "u" "t" "a" "bodyEmptyObj"
      200 (Json.obj []) (by decide) (by decide) rfl).1 rfl
